import Mathlib

/-!
Verification of the statistics collection-and-aggregation pipeline of the
kornukopia-ai profile repository, a shallow embedding of
`scripts/generate_lines_stats.py` and `scripts/generate_activity_graph.py`.

Modelling conventions:
* Python integers are `ℤ` (or `ℕ` for counters that are never negative).
* Python's true division `/` is applied in these scripts only to integer
  values; it is modelled as exact rational division in `ℚ`.  The builtin
  `round` is modelled by `pythonRound`, Python's round-half-to-even on the
  exact value.  The `"%.1f"` format is modelled by `fmtOneDec` on the exact
  value.  (On every concrete input appearing in a theorem below the binary
  floating-point computation of the scripts produces the same digits; this
  was checked against IEEE-754 double semantics.)
* HTTP traffic is modelled by explicit response streams (`ℕ → HttpResponse`)
  or fetch functions passed as parameters; the wall clock readings used by
  the scripts (`datetime.now`) are passed as explicit `today`/`now`
  parameters.
* Python dicts appear as association lists in insertion order; reading with
  a default is `dict_get`, assignment is `dict_assign`.
-/

attribute [local semireducible] Rat.mul Rat.add Rat.sub Rat.inv

set_option maxRecDepth 3000

/-- Python's builtin `round` on the exact rational value: round to the
nearest integer, ties to the even integer. -/
def pythonRound (x : ℚ) : ℤ :=
  if x - (Rat.floor x : ℚ) < 1/2 then Rat.floor x
  else if 1/2 < x - (Rat.floor x : ℚ) then Rat.floor x + 1
  else if Rat.floor x % 2 = 0 then Rat.floor x else Rat.floor x + 1

/-- Python's `f"{x:.1f}"` on the exact rational value: one decimal digit,
rounding half to even.  (Python formats the nearest binary double; on the
values reaching this function in the scripts the digits agree.) -/
def fmtOneDec (x : ℚ) : String :=
  let m := pythonRound (x * 10)
  (if m < 0 then "-" else "") ++ toString (m.natAbs / 10) ++ "." ++ toString (m.natAbs % 10)

/-- `s * n` for strings, as in Python string repetition / repeated `+=`. -/
def strRepeat (s : String) (n : ℕ) : String :=
  String.join (List.replicate n s)

/-! ## generate_lines_stats.py -/

def ORG_NAME : String := "kornukopia-ai"

/-- One HTTP response of the `stats/code_frequency` endpoint: a status code
and the decoded JSON body (a list of weekly `[timestamp, additions,
deletions]` rows; an empty list models both an empty 200 body and the
irrelevant body of a non-200 response). -/
structure HttpResponse where
  status : ℕ
  body : List (List ℤ)

def max_wait : ℕ := 60

def wait_time : ℕ := 5

/-- The polling loop of `get_code_frequency` (lines 44-60): one iteration per
request, 5 seconds of accumulated wait per iteration, while `waited <
max_wait`.  `resp k` is the response to the `k`-th request of this call. -/
def get_code_frequency_loop (resp : ℕ → HttpResponse) (waited polls : ℕ) :
    List (List ℤ) :=
  if waited < max_wait then
    let r := resp polls
    if r.status = 200 then
      if r.body ≠ [] then r.body
      else get_code_frequency_loop resp (waited + wait_time) (polls + 1)
    else if r.status = 202 then
      get_code_frequency_loop resp (waited + wait_time) (polls + 1)
    else []
  else []
  termination_by max_wait - waited
  decreasing_by all_goals simp [max_wait, wait_time] at *; omega

/-- `get_code_frequency` (lines 37-63): poll the endpoint, starting with
`waited = 0`, returning the first non-empty 200 body, an empty list on any
other status, or an empty list when the accumulated wait reaches 60s. -/
def get_code_frequency (resp : ℕ → HttpResponse) : List (List ℤ) :=
  get_code_frequency_loop resp 0 0

/-- A poll outcome on which the loop keeps waiting (lines 48-52): HTTP 200
with an empty body, or HTTP 202. -/
def poll_continues (r : HttpResponse) : Prop :=
  (r.status = 200 ∧ r.body = []) ∨ r.status = 202

/-- A poll that succeeds (lines 46-49): HTTP 200 with a non-empty body. -/
def poll_succeeds (r : HttpResponse) : Prop :=
  r.status = 200 ∧ r.body ≠ []

/-- A poll with a definitive error status (lines 53-55). -/
def poll_fails (r : HttpResponse) : Prop :=
  r.status ≠ 200 ∧ r.status ≠ 202

/-- `format_number` (lines 66-72). -/
def format_number (n : ℤ) : String :=
  if 1000000 ≤ |n| then fmtOneDec ((n : ℚ) / 1000000) ++ "M"
  else if 1000 ≤ |n| then fmtOneDec ((n : ℚ) / 1000) ++ "k"
  else toString n

/-- `calc_diff_boxes` (lines 75-90).  At both call sites the arguments are
integers and `deletions` is passed as an absolute value. -/
def calc_diff_boxes (additions deletions max_total : ℤ) : ℤ × ℤ :=
  let total := additions + deletions
  if max_total = 0 then (0, 0)
  else
    let _ratio : ℚ := (total : ℚ) / (max_total : ℚ)
    let add_share : ℚ := if 0 < total then (additions : ℚ) / (total : ℚ) else 0
    let del_share : ℚ := if 0 < total then (deletions : ℚ) / (total : ℚ) else 0
    let add_boxes := if 0 < additions then max 1 (min 5 (pythonRound (add_share * 5))) else 0
    let del_boxes := if 0 < deletions then max 1 (min 5 (pythonRound (del_share * 5))) else 0
    (add_boxes, del_boxes)

abbrev RepoStat := String × ℤ × ℤ

/-- The sort key of `generate_lines_svg` (line 98): `additions +
abs(deletions)` of one `repo_stats` entry. -/
def repo_key (p : RepoStat) : ℤ :=
  p.2.1 + |p.2.2|

/-- `sorted(repo_stats.items(), key=..., reverse=True)` (lines 96-100):
Python's sort is stable, and a stable descending sort is exactly insertion
sort with the "goes no later" relation `repo_key q ≤ repo_key p`. -/
def sortDesc (l : List RepoStat) : List RepoStat :=
  List.insertionSort (fun p q => repo_key q ≤ repo_key p) l

/-! String segments of the `generate_lines_svg` templates (lines 132-188),
split at the f-string interpolation points. -/

def lines_left_a : String :=
  "                        <div class=\"field\">\n                            <svg xmlns=\"http://www.w3.org/2000/svg\" viewBox=\"0 0 16 16\" width=\"16\" height=\"16\">\n                                <path fill-rule=\"evenodd\" d=\"M8 5.5a2.5 2.5 0 100 5 2.5 2.5 0 000-5zM4 8a4 4 0 118 0 4 4 0 01-8 0z\"/>\n                            </svg>\n                            <span class=\"diff-handle\">"

def lines_left_b : String :=
  "</span>\n                        </div>"

def lines_right_a : String :=
  "                        <div class=\"field\">\n                            "

def lines_right_b : String :=
  "\n                            <div class=\"diff-stats\">\n                                <span class=\"added\"> +"

def lines_right_c : String :=
  "</span>\n                                <span class=\"deleted\"> -"

def lines_right_d : String :=
  "</span>\n                            </div>\n                            <span> </span>\n                        </div>"

def lines_seg0 : String :=
  "<svg xmlns=\"http://www.w3.org/2000/svg\" width=\""

def lines_seg1 : String :=
  "\" height=\""

def lines_seg2 : String :=
  "\" class=\"\">\n    <defs>\n        <style/>\n    </defs>\n    <style>svg\x7bfont-family:-apple-system,BlinkMacSystemFont,Segoe UI,Helvetica,Arial,sans-serif,Apple Color Emoji,Segoe UI Emoji;font-size:14px;color:#777\x7dh1,h2\x7bmargin:8px 0 2px;padding:0;color:#0366d6;font-size:20px;font-weight:700\x7dh2\x7bfont-weight:400;font-size:16px\x7dh1 svg,h2 svg\x7bfill:currentColor\x7dsection>.field\x7bmargin-left:5px;margin-right:5px\x7d.field\x7bdisplay:flex;align-items:center;margin-bottom:2px;white-space:nowrap\x7d.field svg\x7bmargin:0 8px;fill:#959da5;flex-shrink:0\x7d.row\x7bdisplay:flex;flex-wrap:wrap\x7d.row section\x7bflex:1 1 0\x7dfooter\x7bmargin-top:8px;font-size:10px;font-style:italic;color:#666;text-align:right;display:flex;flex-direction:column;justify-content:flex-end;padding:0 4px\x7d.diff-handle\x7bcolor:#58a6ff;max-width:200px;text-overflow:ellipsis;overflow:hidden\x7d.diff-box\x7bdisplay:inline-block;width:8px;height:8px;margin-left:1px;background-color:rgba(110,118,129,.4);border:1px solid rgba(246,240,251,.1)\x7d.diff-box:first-child\x7bmargin-left:9px\x7d.diff-box.added\x7bbackground-color:#3fb950\x7d.diff-box.deleted\x7bbackground-color:#da3633\x7d.diff-stats,code,span.code\x7bfont-family:SFMono-Regular,Consolas,Liberation Mono,Menlo,monospace\x7d.diff-stats\x7bmargin-left:4px;font-weight:700;font-size:12px;white-space:nowrap\x7d.added\x7bcolor:#3fb950\x7d.deleted\x7bcolor:#da3633\x7dcode,span.code\x7bbackground-color:#7777771f;padding:1px 5px;font-size:80%;border-radius:6px;color:#777\x7dcode\x7bdisplay:inline-block\x7dspan.code\x7bmargin:0 4px -3px\x7d#metrics-end\x7bwidth:100%\x7d</style>\n    <style/>\n    <foreignObject x=\"0\" y=\"0\" width=\"100%\" height=\"100%\">\n        <div xmlns=\"http://www.w3.org/1999/xhtml\" xmlns:xlink=\"http://www.w3.org/1999/xlink\" class=\"items-wrapper\">\n            <section>\n                <h2 class=\"field\">\n                    <svg xmlns=\"http://www.w3.org/2000/svg\" viewBox=\"0 0 16 16\" width=\"16\" height=\"16\">\n                        <path fill-rule=\"evenodd\" d=\"M2.75 1.5a.25.25 0 00-.25.25v12.5c0 .138.112.25.25.25h10.5a.25.25 0 00.25-.25V4.664a.25.25 0 00-.073-.177l-2.914-2.914a.25.25 0 00-.177-.073H2.75zM1 1.75C1 .784 1.784 0 2.75 0h7.586c.464 0 .909.184 1.237.513l2.914 2.914c.329.328.513.773.513 1.237v9.586A1.75 1.75 0 0113.25 16H2.75A1.75 1.75 0 011 14.25V1.75zm7 1.5a.75.75 0 01.75.75v1.5h1.5a.75.75 0 010 1.5h-1.5v1.5a.75.75 0 01-1.5 0V7h-1.5a.75.75 0 010-1.5h1.5V4A.75.75 0 018 3.25zm-3 8a.75.75 0 01.75-.75h4.5a.75.75 0 010 1.5h-4.5a.75.75 0 01-.75-.75z\"/>\n                    </svg>\n                    Lines of code pushed\n                </h2>\n                <div class=\"row\">\n                    <section>\n"

def lines_seg3 : String :=
  "\n                    </section>\n                    <section>\n"

def lines_seg4 : String :=
  "\n                    </section>\n                </div>\n            </section>\n            <footer>\n                <span>Total: +"

def lines_seg5 : String :=
  " / -"

def lines_seg6 : String :=
  " · "

def lines_seg7 : String :=
  " repositories · "

def lines_seg8 : String :=
  " (Asia/Seoul)</span>\n            </footer>\n        </div>\n        <div xmlns=\"http://www.w3.org/1999/xhtml\" id=\"metrics-end\"></div>\n    </foreignObject>\n</svg>"


/-- One left-column row (lines 132-137). -/
def left_row (repo_name : String) : String :=
  lines_left_a ++ ORG_NAME ++ "/" ++ repo_name ++ lines_left_b

/-- One right-column row (lines 139-153): diff boxes then formatted deltas.
`stats.1` is the stored additions, `stats.2` the stored (non-positive)
deletions, displayed and passed to `calc_diff_boxes` as `abs`. -/
def right_row (stats : ℤ × ℤ) (max_total : ℤ) : String :=
  let additions := stats.1
  let deletions := |stats.2|
  let boxes := calc_diff_boxes additions deletions max_total
  let boxes_html :=
    strRepeat "<div class=\"diff-box added\"></div>" boxes.1.toNat ++
    strRepeat "<div class=\"diff-box deleted\"></div>" boxes.2.toNat
  lines_right_a ++ boxes_html ++ lines_right_b ++ format_number additions ++
    lines_right_c ++ format_number deletions ++ lines_right_d

/-- The body of `generate_lines_svg` (lines 102-190) after the sorted list,
the two grand totals and the repository count have been computed from
`repo_stats`; `now` is the formatted KST timestamp of line 120. -/
def lines_svg_render (sorted_repos : List RepoStat) (total_added total_deleted : ℤ)
    (repo_count : ℕ) (now : String) (width : ℤ) : String :=
  let top_repos := sorted_repos.take 10
  let max_total := ((top_repos.map repo_key).max?).getD 1
  let row_height : ℤ := 22
  let header_height : ℤ := 40
  let footer_height : ℤ := 30
  let height := header_height + (top_repos.length : ℤ) * row_height + footer_height
  let left_html := String.intercalate "\n" (top_repos.map (fun p => left_row p.1))
  let right_html := String.intercalate "\n" (top_repos.map (fun p => right_row p.2 max_total))
  lines_seg0 ++ toString width ++ lines_seg1 ++ toString height ++ lines_seg2 ++
    left_html ++ lines_seg3 ++ right_html ++ lines_seg4 ++
    format_number total_added ++ lines_seg5 ++ format_number total_deleted ++
    lines_seg6 ++ toString repo_count ++ lines_seg7 ++ now ++ lines_seg8

/-- `generate_lines_svg` (lines 93-190): sort, total and render.  `repo_stats`
is the dict in insertion order; `now` is the clock reading. -/
def generate_lines_svg (repo_stats : List RepoStat) (now : String) (width : ℤ) : String :=
  lines_svg_render (sortDesc repo_stats)
    ((repo_stats.map (fun p => p.2.1)).sum)
    ((repo_stats.map (fun p => |p.2.2|)).sum)
    repo_stats.length now width

/-- Everything `lines_svg_render` emits before the timestamp interpolation. -/
def lines_svg_head_render (sorted_repos : List RepoStat) (total_added total_deleted : ℤ)
    (repo_count : ℕ) (width : ℤ) : String :=
  let top_repos := sorted_repos.take 10
  let max_total := ((top_repos.map repo_key).max?).getD 1
  let row_height : ℤ := 22
  let header_height : ℤ := 40
  let footer_height : ℤ := 30
  let height := header_height + (top_repos.length : ℤ) * row_height + footer_height
  let left_html := String.intercalate "\n" (top_repos.map (fun p => left_row p.1))
  let right_html := String.intercalate "\n" (top_repos.map (fun p => right_row p.2 max_total))
  lines_seg0 ++ toString width ++ lines_seg1 ++ toString height ++ lines_seg2 ++
    left_html ++ lines_seg3 ++ right_html ++ lines_seg4 ++
    format_number total_added ++ lines_seg5 ++ format_number total_deleted ++
    lines_seg6 ++ toString repo_count ++ lines_seg7

/-- Everything `generate_lines_svg` emits before the timestamp. -/
def lines_svg_head (repo_stats : List RepoStat) (width : ℤ) : String :=
  lines_svg_head_render (sortDesc repo_stats)
    ((repo_stats.map (fun p => p.2.1)).sum)
    ((repo_stats.map (fun p => |p.2.2|)).sum)
    repo_stats.length width

/-- `sum(week[1] for week in code_freq if len(week) >= 3)` (line 215). -/
def week_additions (code_freq : List (List ℤ)) : ℤ :=
  (((code_freq.filter (fun week => decide (3 ≤ week.length))).map (fun week => week.getD 1 0))).sum

/-- `sum(week[2] for week in code_freq if len(week) >= 3)` (line 216). -/
def week_deletions (code_freq : List (List ℤ)) : ℤ :=
  (((code_freq.filter (fun week => decide (3 ≤ week.length))).map (fun week => week.getD 2 0))).sum

/-- Python dict assignment `stats[name] = v` on an insertion-ordered
association list: update in place if present, else append. -/
def dict_assign (stats : List RepoStat) (name : String) (v : ℤ × ℤ) : List RepoStat :=
  if (stats.map Prod.fst).contains name then
    stats.map (fun p => if p.1 = name then (name, v) else p)
  else stats ++ [(name, v)]

/-- The per-repository body of the collection loop of `main` (lines 210-225):
fetch the code frequency, and store the summed totals when the series is
non-empty and non-trivial. -/
def process_repo (fetch : String → List (List ℤ)) (stats : List RepoStat)
    (repo_name : String) : List RepoStat :=
  let code_freq := fetch repo_name
  if code_freq ≠ [] then
    let total_additions := week_additions code_freq
    let total_deletions := week_deletions code_freq
    if 0 < total_additions ∨ total_deletions < 0 then
      dict_assign stats repo_name (total_additions, total_deletions)
    else stats
  else stats

/-- The three collection rounds of `main` (lines 202-225): each round
re-attempts exactly the repositories still missing from `repo_stats`.
`fetch k n` is what `get_code_frequency(n)` returns during round `k`.
(The early `break` on an empty pending list is dropped: a round with no
pending repositories is a no-op anyway.) -/
def collect_stats (fetch : ℕ → String → List (List ℤ)) (repo_names : List String) :
    List RepoStat :=
  (List.range 3).foldl
    (fun stats round_num =>
      let pending := repo_names.filter (fun n => !(stats.map Prod.fst).contains n)
      pending.foldl (process_repo (fetch round_num)) stats)
    []

/-! ## generate_activity_graph.py -/

/-- `daily_data.get(d, 0)` on an association list. -/
def dict_get (m : List (ℤ × ℤ)) (d : ℤ) : ℤ :=
  (List.lookup d m).getD 0

/-- The 90 window dates of `generate_full_activity_svg` (line 79), as day
numbers: `range(89, -1, -1)` enumerates `89 - k` for `k < 90`, so the dates
are `today - (89 - k)`, i.e. `today - 89, ..., today`. -/
def activity_dates (today : ℤ) : List ℤ :=
  (List.range 90).map (fun (k : ℕ) => today - ((89 : ℤ) - (k : ℤ)))

/-- `values = [daily_data.get(d, 0) for d in dates]` (line 80). -/
def activity_values (daily_data : List (ℤ × ℤ)) (today : ℤ) : List ℤ :=
  (activity_dates today).map (fun d => dict_get daily_data d)

/-- `max_val = max(values) if values and max(values) > 0 else 1` (line 82). -/
def activity_max_val (values : List ℤ) : ℤ :=
  match values.max? with
  | some m => if 0 < m then m else 1
  | none => 1

/-- Layout constants of `generate_full_activity_svg` (lines 97-100). -/
def graph_x : ℤ := 16

def graph_y : ℤ := 55

def graph_width (width : ℤ) : ℤ := width - 32

def graph_height (height : ℤ) : ℤ := height - 75

/-- The y scaling of one plotted value (line 114). -/
def point_y (height max_val val : ℤ) : ℚ :=
  if 0 < max_val then
    (graph_y : ℚ) + (graph_height height : ℚ) -
      ((val : ℚ) / (max_val : ℚ) * (graph_height height : ℚ))
  else (graph_y : ℚ) + (graph_height height : ℚ)

def qpow10 : ℕ → ℚ
  | 0 => 1
  | k + 1 => qpow10 k * 10

def pyFloatDigits (q : ℚ) : ℕ :=
  (((List.range 18).filter (fun k => decide ((q * qpow10 k).den = 1))).head?).getD 17

def padZeros (s : String) (k : ℕ) : String :=
  strRepeat "0" (k - s.length) ++ s

/-- Python `str` of a float value that is a short terminating decimal (the
only values formatted this way in the script are the gridline offsets
`55 + 11.25*i`, which are exactly representable): the exact decimal digits,
with at least one digit after the point. -/
def pyFloatStr (q : ℚ) : String :=
  let k := max 1 (pyFloatDigits q)
  let m := (q * qpow10 k).num
  (if q < 0 then "-" else "") ++ toString (m.natAbs / 10 ^ k) ++ "." ++
    padZeros (toString (m.natAbs % 10 ^ k)) k

/-! String segments of the `generate_full_activity_svg` templates
(lines 85-136), split at the f-string interpolation points. -/

def act_head0 : String :=
  "<svg width=\""

def act_head1 : String :=
  "\" height=\""

def act_head2 : String :=
  "\" xmlns=\"http://www.w3.org/2000/svg\">\n  <style>\n    .title \x7b font: bold 14px -apple-system, BlinkMacSystemFont, sans-serif; fill: #c9d1d9; \x7d\n    .subtitle \x7b font: 11px -apple-system, BlinkMacSystemFont, sans-serif; fill: #8b949e; \x7d\n    .axis \x7b font: 10px -apple-system, BlinkMacSystemFont, sans-serif; fill: #8b949e; \x7d\n  </style>\n  <rect width=\"100%\" height=\"100%\" fill=\"#0d1117\" rx=\"6\"/>\n  <text x=\"16\" y=\"28\" class=\"title\">Commit Activity</text>\n  <text x=\"16\" y=\"44\" class=\"subtitle\">Last 90 days</text>\n"

def act_grid0 : String :=
  "  <line x1=\""

def act_grid1 : String :=
  "\" y1=\""

def act_grid2 : String :=
  "\" x2=\""

def act_grid3 : String :=
  "\" y2=\""

def act_grid4 : String :=
  "\" stroke=\"#21262d\" stroke-width=\"1\"/>"

def act_plot0 : String :=
  "  <defs>\n    <linearGradient id=\"fillGrad\" x1=\"0%\" y1=\"0%\" x2=\"0%\" y2=\"100%\">\n      <stop offset=\"0%\" style=\"stop-color:#3fb950;stop-opacity:0.3\"/>\n      <stop offset=\"100%\" style=\"stop-color:#3fb950;stop-opacity:0\"/>\n    </linearGradient>\n  </defs>\n  <polygon fill=\"url(#fillGrad)\" points=\""

def act_plot1 : String :=
  "\"/>\n  <polyline fill=\"none\" stroke=\"#3fb950\" stroke-width=\"2\" stroke-linecap=\"round\" stroke-linejoin=\"round\" points=\""

def act_plot2 : String :=
  "\"/>"

def act_total0 : String :=
  "  <text x=\""

def act_total1 : String :=
  "\" y=\"28\" class=\"subtitle\" text-anchor=\"end\">"

def act_total2 : String :=
  " commits</text>"

def act_avg0 : String :=
  "  <text x=\""

def act_avg1 : String :=
  "\" y=\"44\" class=\"subtitle\" text-anchor=\"end\">avg "

def act_avg2 : String :=
  "/day</text>"

/-- One gridline (lines 103-105). -/
def grid_line (width height : ℤ) (i : ℕ) : String :=
  let y : ℚ := (graph_y : ℚ) + ((graph_height height : ℚ) / 4) * (i : ℚ)
  act_grid0 ++ toString graph_x ++ act_grid1 ++ pyFloatStr y ++ act_grid2 ++
    toString (graph_x + graph_width width) ++ act_grid3 ++ pyFloatStr y ++ act_grid4

/-- The point list (lines 108-117): `"{x:.1f},{y:.1f}"` per value, joined by
single spaces. -/
def activity_points (width height : ℤ) (values : List ℤ) : String :=
  let max_val := activity_max_val values
  let step : ℚ := if 1 < values.length
    then (graph_width width : ℚ) / ((values.length : ℚ) - 1)
    else (graph_width width : ℚ)
  String.intercalate " " (values.enum.map (fun iv =>
    fmtOneDec ((graph_x : ℚ) + (iv.1 : ℚ) * step) ++ "," ++
      fmtOneDec (point_y height max_val iv.2)))

/-- The area-fill and polyline chunk (lines 119-128). -/
def activity_plot (width height : ℤ) (values : List ℤ) : String :=
  let points_str := activity_points width height values
  let fill_points := toString graph_x ++ "," ++ toString (graph_y + graph_height height) ++
    " " ++ points_str ++ " " ++ toString (graph_x + graph_width width) ++ "," ++
    toString (graph_y + graph_height height)
  act_plot0 ++ fill_points ++ act_plot1 ++ points_str ++ act_plot2

/-- The total-commits text (lines 131, 133). -/
def activity_total_text (width : ℤ) (values : List ℤ) : String :=
  act_total0 ++ toString (width - 16) ++ act_total1 ++ toString values.sum ++ act_total2

/-- The average text (lines 132, 134): `avg = total / len(values) if values
else 0`. -/
def activity_avg_text (width : ℤ) (values : List ℤ) : String :=
  let avg : ℚ := if values ≠ [] then (values.sum : ℚ) / (values.length : ℚ) else 0
  act_avg0 ++ toString (width - 16) ++ act_avg1 ++ fmtOneDec avg ++ act_avg2

/-- `generate_full_activity_svg` (lines 75-138).  `today` is the clock
reading `datetime.now(timezone.utc).date()` as a day number. -/
def generate_full_activity_svg (daily_data : List (ℤ × ℤ)) (today width height : ℤ) : String :=
  let values := activity_values daily_data today
  let svg_parts : List String :=
    [act_head0 ++ toString width ++ act_head1 ++ toString height ++ act_head2] ++
    (List.range 5).map (grid_line width height) ++
    (if values ≠ [] then [activity_plot width height values] else []) ++
    [activity_total_text width values, activity_avg_text width values, "</svg>"]
  String.intercalate "\n" svg_parts

/-- The aggregation of `main` (lines 146-155) read off as a map: the
aggregated count of a date is the sum, over all repositories, of that
repository's count for the date (each `daily` dict holds a date at most
once; absent dates contribute nothing). -/
def aggregate_daily (repo_series : List (List (ℤ × ℤ))) : ℤ → ℤ :=
  fun date =>
    (repo_series.map (fun daily => ((daily.filter (fun p => p.1 == date)).map Prod.snd).sum)).sum

/-! ## Helper lemmas -/

theorem ratFloor_eq (x : ℚ) : Rat.floor x = ⌊x⌋ :=
  (Rat.floor_def' x).trans Rat.floor_def.symm

theorem pythonRound_eq (x : ℚ) :
    pythonRound x =
      if Int.fract x < 1/2 then ⌊x⌋
      else if 1/2 < Int.fract x then ⌊x⌋ + 1
      else if ⌊x⌋ % 2 = 0 then ⌊x⌋ else ⌊x⌋ + 1 := by
  simp only [pythonRound, ratFloor_eq, Int.self_sub_floor]

theorem pythonRound_neg (x : ℚ) : pythonRound (-x) = -pythonRound x := by
  rw [pythonRound_eq, pythonRound_eq]
  by_cases h0 : Int.fract x = 0
  · have hx : (⌊x⌋ : ℚ) = x := by
      have h := h0
      unfold Int.fract at h
      linarith
    have hnegfloor : ⌊-x⌋ = -⌊x⌋ := by
      have hx2 : -x = ((-⌊x⌋ : ℤ) : ℚ) := by
        push_cast
        linarith
      rw [hx2, Int.floor_intCast]
    have hfr : Int.fract (-x) = 0 := Int.fract_neg_eq_zero.mpr h0
    rw [h0, hfr, hnegfloor]
    rw [if_pos (by norm_num), if_pos (by norm_num)]
  · have hf1 : Int.fract (-x) = 1 - Int.fract x := Int.fract_neg h0
    have hfpos : 0 < Int.fract x := lt_of_le_of_ne (Int.fract_nonneg x) (Ne.symm h0)
    have hflt : Int.fract x < 1 := Int.fract_lt_one x
    have hnegfloor : ⌊-x⌋ = -⌊x⌋ - 1 := by
      have h2 : Int.fract (-x) = -x - ⌊-x⌋ := rfl
      have h3 : Int.fract x = x - ⌊x⌋ := rfl
      have : ((⌊-x⌋ : ℤ) : ℚ) = ((-⌊x⌋ - 1 : ℤ) : ℚ) := by
        push_cast
        rw [h2, h3] at hf1
        linarith
      exact_mod_cast this
    rw [hf1, hnegfloor]
    rcases lt_trichotomy (Int.fract x) (1/2) with hlt | heq | hgt
    · rw [if_pos hlt, if_neg (by linarith), if_pos (by linarith)]
      omega
    · rw [heq]
      have e : (1 : ℚ) - 1/2 = 1/2 := by norm_num
      rw [e, if_neg (lt_irrefl _), if_neg (lt_irrefl _), if_neg (lt_irrefl _),
        if_neg (lt_irrefl _)]
      by_cases hp : ⌊x⌋ % 2 = 0
      · rw [if_pos hp, if_neg (by omega)]
        omega
      · rw [if_neg hp, if_pos (by omega)]
        omega
    · rw [if_pos (by linarith), if_neg (by linarith), if_pos hgt]
      omega

theorem pythonRound_le_floor_add_one (x : ℚ) : pythonRound x ≤ ⌊x⌋ + 1 := by
  rw [pythonRound_eq]
  split
  · omega
  · split
    · omega
    · split <;> omega

theorem str_empty_append (s : String) : "" ++ s = s := by
  cases s with
  | mk d => rfl

theorem fmtOneDec_neg_of_le (x : ℚ) (hx : x ≤ -1) :
    fmtOneDec x = "-" ++ fmtOneDec (-x) := by
  have hm : pythonRound (x * 10) < 0 := by
    have h1 : pythonRound (x * 10) ≤ ⌊x * 10⌋ + 1 := pythonRound_le_floor_add_one _
    have h2 : ⌊x * 10⌋ ≤ ⌊(-10 : ℚ)⌋ := Int.floor_le_floor (by linarith)
    have h3 : ⌊(-10 : ℚ)⌋ = -10 := by
      rw [show ((-10 : ℚ)) = ((-10 : ℤ) : ℚ) by norm_num, Int.floor_intCast]
    omega
  have hneg : pythonRound (-x * 10) = -pythonRound (x * 10) := by
    rw [show -x * 10 = -(x * 10) by ring, pythonRound_neg]
  simp only [fmtOneDec, hneg]
  rw [if_pos hm, if_neg (by omega), Int.natAbs_neg, str_empty_append]
  simp only [String.append_assoc]

theorem int_toString_neg (n : ℤ) (hn : n < 0) : toString n = "-" ++ toString (-n) := by
  cases n with
  | ofNat k => exact absurd hn (Int.natCast_nonneg k).not_lt
  | negSucc m => rfl

/-! ## Claims C3, C7, C10, C9 -/

/-- C3 counterexample: on the spec's example `calc_diff_boxes(90, 10, 100)`
the added box count is not 5: Python's `round` sends the exact tie
`0.9 * 5 = 4.5` to the even integer 4. -/
theorem C3_calc_diff_boxes_counterexample : calc_diff_boxes 90 10 100 ≠ (5, 1) := by decide

/-- C3 (amended): `calc_diff_boxes(90, 10, 100) = (4, 1)`: `round(0.9*5) =
round(4.5) = 4` under round-half-to-even, clamped to `[1, 5]`, and
`round(0.1*5) = round(0.5) = 0`, floored to 1 because deletions are
positive. -/
theorem C3_calc_diff_boxes_example : calc_diff_boxes 90 10 100 = (4, 1) := by decide

/-- C7: for some input with positive additions and deletions and nonzero
`max_total` the two clamped box counts sum to more than 5: at
`additions = 70`, `deletions = 30` the rounded counts are 4 and 2. -/
theorem C7_boxes_sum_exceeds_five :
    ∃ additions deletions max_total : ℤ, 0 < additions ∧ 0 < deletions ∧ max_total ≠ 0 ∧
      5 < (calc_diff_boxes additions deletions max_total).1 +
        (calc_diff_boxes additions deletions max_total).2 :=
  ⟨70, 30, 100, by decide, by decide, by decide, by decide⟩

/-- C10: for nonzero `max_total` the result of `calc_diff_boxes` does not
depend on `max_total` (the computed `ratio = total / max_total` is unused),
while `max_total = 0` forces the result `(0, 0)`. -/
theorem C10_max_total_unused (additions deletions m1 m2 : ℤ)
    (h1 : m1 ≠ 0) (h2 : m2 ≠ 0) :
    calc_diff_boxes additions deletions m1 = calc_diff_boxes additions deletions m2 ∧
    calc_diff_boxes additions deletions 0 = (0, 0) := by
  constructor
  · simp only [calc_diff_boxes, if_neg h1, if_neg h2]
  · simp [calc_diff_boxes]

theorem C10_max_total_unused_witness :
    (100 : ℤ) ≠ 0 ∧ (7 : ℤ) ≠ 0 ∧
    (calc_diff_boxes 90 10 100 = calc_diff_boxes 90 10 7 ∧
      calc_diff_boxes 90 10 0 = (0, 0)) :=
  ⟨by decide, by decide, C10_max_total_unused 90 10 100 7 (by decide) (by decide)⟩

/-- C9: `format_number` maps 950 to `"950"`, 1500 to `"1.5k"`, 2300000 to
`"2.3M"`, and every negative input goes through the same absolute-value
thresholds with the sign preserved. -/
theorem C9_format_number :
    format_number 950 = "950" ∧ format_number 1500 = "1.5k" ∧
    format_number 2300000 = "2.3M" ∧
    ∀ n : ℤ, n < 0 → format_number n = "-" ++ format_number (-n) := by
  refine ⟨by decide, by decide, by decide, ?_⟩
  intro n hn
  unfold format_number
  rw [abs_neg]
  by_cases hM : 1000000 ≤ |n|
  · rw [if_pos hM, if_pos hM]
    have hle : (n : ℚ) / 1000000 ≤ -1 := by
      rw [div_le_iff₀ (by norm_num)]
      have h2 : n ≤ -1000000 := by
        rcases abs_cases n with ⟨h1, _⟩ | ⟨h1, _⟩ <;> omega
      have h3 : (n : ℚ) ≤ -1000000 := by exact_mod_cast h2
      linarith
    have harg : (((-n : ℤ) : ℚ)) / 1000000 = -((n : ℚ) / 1000000) := by
      push_cast
      ring
    rw [harg, fmtOneDec_neg_of_le _ hle, String.append_assoc]
  · rw [if_neg hM, if_neg hM]
    by_cases hk : 1000 ≤ |n|
    · rw [if_pos hk, if_pos hk]
      have hle : (n : ℚ) / 1000 ≤ -1 := by
        rw [div_le_iff₀ (by norm_num)]
        have h2 : n ≤ -1000 := by
          rcases abs_cases n with ⟨h1, _⟩ | ⟨h1, _⟩ <;> omega
        have h3 : (n : ℚ) ≤ -1000 := by exact_mod_cast h2
        linarith
      have harg : (((-n : ℤ) : ℚ)) / 1000 = -((n : ℚ) / 1000) := by
        push_cast
        ring
      rw [harg, fmtOneDec_neg_of_le _ hle, String.append_assoc]
    · rw [if_neg hk, if_neg hk]
      exact int_toString_neg n hn

theorem C9_format_number_witness :
    (-1500 : ℤ) < 0 ∧ format_number (-1500) = "-" ++ format_number 1500 :=
  ⟨by decide, C9_format_number.2.2.2 (-1500) (by decide)⟩

/-! ## Claim C8: the y scaling -/

theorem activity_max_val_pos (values : List ℤ) : 0 < activity_max_val values := by
  unfold activity_max_val
  cases hm : values.max? with
  | none => norm_num
  | some m =>
    dsimp only
    split
    · assumption
    · norm_num

/-- C8: with the panel taller than its 75 pixels of chrome, the divisor
`activity_max_val` is always positive (1 when all 90 values are zero, so no
division by zero), the maximum value is drawn on the top edge `graph_y`,
zero is drawn on the bottom edge `graph_y + graph_height`, and the rendered
y decreases strictly as the value grows. -/
theorem C8_scaling (height : ℤ) (values : List ℤ) (hh : 75 < height) :
    0 < activity_max_val values ∧
    point_y height (activity_max_val values) (activity_max_val values) = (graph_y : ℚ) ∧
    point_y height (activity_max_val values) 0 = (graph_y : ℚ) + (graph_height height : ℚ) ∧
    (∀ v1 v2 : ℤ, v1 < v2 →
      point_y height (activity_max_val values) v2 < point_y height (activity_max_val values) v1) ∧
    ((∀ v ∈ values, v = 0) → activity_max_val values = 1) := by
  have hmax := activity_max_val_pos values
  have hmq : (0 : ℚ) < (activity_max_val values : ℚ) := by exact_mod_cast hmax
  have hgh : (0 : ℚ) < (graph_height height : ℚ) := by
    unfold graph_height
    push_cast
    have : (75 : ℚ) < (height : ℚ) := by exact_mod_cast hh
    linarith
  refine ⟨hmax, ?_, ?_, ?_, ?_⟩
  · unfold point_y
    rw [if_pos hmax, div_self hmq.ne', one_mul]
    ring
  · unfold point_y
    rw [if_pos hmax]
    push_cast
    ring
  · intro v1 v2 hv
    unfold point_y
    rw [if_pos hmax, if_pos hmax]
    have hlt : (v1 : ℚ) / (activity_max_val values : ℚ) * (graph_height height : ℚ) <
        (v2 : ℚ) / (activity_max_val values : ℚ) * (graph_height height : ℚ) := by
      apply mul_lt_mul_of_pos_right _ hgh
      exact (div_lt_div_iff_of_pos_right hmq).mpr (by exact_mod_cast hv)
    linarith
  · intro hz
    unfold activity_max_val
    cases hm : values.max? with
    | none => rfl
    | some m =>
      have hmem : m ∈ values := List.max?_mem (fun a b => max_choice a b) hm
      have := hz m hmem
      subst this
      norm_num

theorem C8_scaling_witness :
    (75 : ℤ) < 120 ∧
    (0 < activity_max_val [0, 0] ∧
      point_y 120 (activity_max_val [0, 0]) (activity_max_val [0, 0]) = (graph_y : ℚ) ∧
      point_y 120 (activity_max_val [0, 0]) 0 = (graph_y : ℚ) + (graph_height 120 : ℚ) ∧
      (∀ v1 v2 : ℤ, v1 < v2 →
        point_y 120 (activity_max_val [0, 0]) v2 < point_y 120 (activity_max_val [0, 0]) v1) ∧
      ((∀ v ∈ [(0 : ℤ), 0], v = 0) → activity_max_val [0, 0] = 1)) :=
  ⟨by decide, C8_scaling 120 [0, 0] (by decide)⟩

/-! ## Claim C2: the 90-day aggregation -/

theorem lookup_eq_none_of_not_mem_keys (m : List (ℤ × ℤ)) (d : ℤ)
    (h : d ∉ m.map Prod.fst) : List.lookup d m = none := by
  induction m with
  | nil => rfl
  | cons p rest ih =>
    obtain ⟨k, v⟩ := p
    simp only [List.map_cons, List.mem_cons, not_or] at h
    have hbeq : (d == k) = false := beq_eq_false_iff_ne.mpr h.1
    simp only [List.lookup, hbeq]
    exact ih h.2

theorem mem_of_lookup_eq_some (m : List (ℤ × ℤ)) (d c : ℤ)
    (h : List.lookup d m = some c) : (d, c) ∈ m := by
  induction m with
  | nil => simp [List.lookup] at h
  | cons p rest ih =>
    obtain ⟨k, v⟩ := p
    by_cases hk : d = k
    · subst hk
      simp only [List.lookup, beq_self_eq_true] at h
      obtain rfl : v = c := by simpa using h
      exact List.mem_cons_self _ _
    · have hbeq : (d == k) = false := beq_eq_false_iff_ne.mpr hk
      simp only [List.lookup, hbeq] at h
      exact List.mem_cons_of_mem _ (ih h)

/-- Splicing one updated key into a sum over a duplicate-free index list. -/
theorem sum_map_update (l : List ℤ) (k v : ℤ) (f g : ℤ → ℤ)
    (hl : l.Nodup) (hk : k ∈ l) (hfg : ∀ d, d ≠ k → f d = g d)
    (hfk : f k = v + g k) : (l.map f).sum = v + (l.map g).sum := by
  induction l with
  | nil => cases hk
  | cons a t ih =>
    rw [List.nodup_cons] at hl
    rcases List.mem_cons.mp hk with rfl | hkt
    · have ht : t.map f = t.map g := by
        apply List.map_congr_left
        intro d hd
        exact hfg d (fun hda => hl.1 (hda ▸ hd))
      simp only [List.map_cons, List.sum_cons, ht, hfk]
      ring
    · have ha : f a = g a := hfg a (fun hak => hl.1 (hak ▸ hkt))
      simp only [List.map_cons, List.sum_cons, ha, ih hl.2 hkt]
      ring

theorem activity_dates_length (today : ℤ) : (activity_dates today).length = 90 := by
  unfold activity_dates
  rw [List.length_map, List.length_range]

theorem activity_dates_pairwise (today : ℤ) :
    (activity_dates today).Pairwise (· < ·) := by
  unfold activity_dates
  rw [List.pairwise_map]
  apply List.Pairwise.imp ?_ (List.pairwise_lt_range 90)
  intro a b h
  omega

theorem activity_dates_nodup (today : ℤ) : (activity_dates today).Nodup :=
  (activity_dates_pairwise today).imp ne_of_lt

theorem activity_dates_getLast (today : ℤ) :
    (activity_dates today).getLast? = some today := by
  have h : activity_dates today =
      (List.range 89).map (fun (k : ℕ) => today - ((89 : ℤ) - (k : ℤ))) ++ [today] := by
    unfold activity_dates
    rw [show (90 : ℕ) = 89 + 1 from rfl, List.range_succ, List.map_append]
    norm_num
  rw [h, List.getLast?_concat]

/-- The bucket sum equals the input sum for in-window inputs. -/
theorem activity_values_sum (today : ℤ) (m : List (ℤ × ℤ))
    (hnd : (m.map Prod.fst).Nodup)
    (hwin : ∀ p ∈ m, p.1 ∈ activity_dates today) :
    (activity_values m today).sum = (m.map Prod.snd).sum := by
  induction m with
  | nil =>
    unfold activity_values dict_get
    simp
  | cons p rest ih =>
    obtain ⟨k, v⟩ := p
    rw [List.map_cons, List.nodup_cons] at hnd
    have hrest : (activity_values rest today).sum = (rest.map Prod.snd).sum :=
      ih hnd.2 (fun q hq => hwin q (List.mem_cons_of_mem _ hq))
    have hsplice : (activity_values ((k, v) :: rest) today).sum =
        v + (activity_values rest today).sum := by
      unfold activity_values
      apply sum_map_update (activity_dates today) k v _ _ (activity_dates_nodup today)
        (hwin (k, v) (List.mem_cons_self _ _))
      · intro d hd
        unfold dict_get
        have hbeq : (d == k) = false := beq_eq_false_iff_ne.mpr hd
        simp only [List.lookup, hbeq]
      · unfold dict_get
        have hnone : List.lookup k rest = none :=
          lookup_eq_none_of_not_mem_keys rest k hnd.1
        simp only [List.lookup, beq_self_eq_true, hnone, Option.getD_some,
          Option.getD_none]
        omega
    rw [hsplice, hrest, List.map_cons, List.sum_cons]

/-- C2 counterexample: a daily series holding 5 commits on a date 100 days
before `today` falls outside the 90-day window, so the bucket sum (0) does
not equal the input sum (5). -/
theorem C2_aggregation_counterexample :
    ¬ ((activity_values [(-100, 5)] 0).sum = ([((-100 : ℤ), (5 : ℤ))].map Prod.snd).sum) := by
  decide

/-- C2 (amended): for a daily-series mapping with distinct keys that all lie
in the 90-day window and non-negative counts, the aggregation of
`generate_full_activity_svg` produces exactly 90 strictly ordered date
buckets ending today, every bucket value is non-negative, and the bucket sum
equals the input sum.  (Counts at dates outside the window are dropped, so
the unrestricted claim fails.) -/
theorem C2_aggregation (today : ℤ) (m : List (ℤ × ℤ))
    (hvals : ∀ p ∈ m, 0 ≤ p.2)
    (hnd : (m.map Prod.fst).Nodup)
    (hwin : ∀ p ∈ m, p.1 ∈ activity_dates today) :
    (activity_values m today).length = 90 ∧
    (activity_dates today).Pairwise (· < ·) ∧
    (activity_dates today).getLast? = some today ∧
    (∀ v ∈ activity_values m today, 0 ≤ v) ∧
    (activity_values m today).sum = (m.map Prod.snd).sum := by
  refine ⟨?_, activity_dates_pairwise today, activity_dates_getLast today, ?_,
    activity_values_sum today m hnd hwin⟩
  · unfold activity_values
    simp [activity_dates_length]
  · intro v hv
    unfold activity_values at hv
    obtain ⟨d, _, rfl⟩ := List.mem_map.mp hv
    unfold dict_get
    cases hl : List.lookup d m with
    | none => simp
    | some c =>
      simpa using hvals (d, c) (mem_of_lookup_eq_some m d c hl)

theorem C2_aggregation_witness :
    (activity_values [(0, 3), (-1, 2)] 0).length = 90 ∧
    (activity_values [(0, 3), (-1, 2)] 0).sum =
      ([((0 : ℤ), (3 : ℤ)), (-1, 2)].map Prod.snd).sum :=
  ⟨(C2_aggregation 0 [(0, 3), (-1, 2)] (by decide) (by decide) (by decide)).1,
   (C2_aggregation 0 [(0, 3), (-1, 2)] (by decide) (by decide) (by decide)).2.2.2.2⟩

/-! ## Claim C1: the polling loop -/

theorem loop_eq_of_lt (resp : ℕ → HttpResponse) (waited polls : ℕ)
    (h : waited < max_wait) :
    get_code_frequency_loop resp waited polls =
      if (resp polls).status = 200 then
        (if (resp polls).body ≠ [] then (resp polls).body
         else get_code_frequency_loop resp (waited + wait_time) (polls + 1))
      else if (resp polls).status = 202 then
        get_code_frequency_loop resp (waited + wait_time) (polls + 1)
      else [] := by
  rw [get_code_frequency_loop]
  rw [if_pos h]

theorem loop_eq_of_ge (resp : ℕ → HttpResponse) (waited polls : ℕ)
    (h : ¬ waited < max_wait) :
    get_code_frequency_loop resp waited polls = [] := by
  rw [get_code_frequency_loop]
  rw [if_neg h]

theorem get_code_frequency_loop_spec (resp : ℕ → HttpResponse) :
    ∀ (n polls : ℕ), n ≤ 12 →
      (∃ k, k < n ∧ (∀ j, j < k → poll_continues (resp (polls + j))) ∧
        poll_succeeds (resp (polls + k)) ∧
        get_code_frequency_loop resp (60 - 5 * n) polls = (resp (polls + k)).body) ∨
      (∃ k, k < n ∧ (∀ j, j < k → poll_continues (resp (polls + j))) ∧
        poll_fails (resp (polls + k)) ∧
        get_code_frequency_loop resp (60 - 5 * n) polls = []) ∨
      ((∀ j, j < n → poll_continues (resp (polls + j))) ∧
        get_code_frequency_loop resp (60 - 5 * n) polls = []) := by
  intro n
  induction n with
  | zero =>
    intro polls _
    right; right
    refine ⟨fun j hj => absurd hj (Nat.not_lt_zero j), ?_⟩
    apply loop_eq_of_ge
    simp [max_wait]
  | succ n ih =>
    intro polls hn
    have hw : (60 - 5 * (n + 1)) < max_wait := by
      simp only [max_wait]
      omega
    have hstep : 60 - 5 * (n + 1) + wait_time = 60 - 5 * n := by
      simp only [wait_time]
      omega
    by_cases h200 : (resp polls).status = 200
    · by_cases hbody : (resp polls).body ≠ []
      · left
        refine ⟨0, by omega, fun j hj => absurd hj (Nat.not_lt_zero j), ?_, ?_⟩
        · rw [Nat.add_zero]
          exact ⟨h200, hbody⟩
        · rw [loop_eq_of_lt resp _ polls hw, if_pos h200, if_pos hbody, Nat.add_zero]
      · have hcont : poll_continues (resp polls) :=
          Or.inl ⟨h200, not_not.mp hbody⟩
        have hloopc : get_code_frequency_loop resp (60 - 5 * (n + 1)) polls =
            get_code_frequency_loop resp (60 - 5 * n) (polls + 1) := by
          rw [loop_eq_of_lt resp _ polls hw, if_pos h200, if_neg hbody, hstep]
        rcases ih (polls + 1) (by omega) with ⟨k, hk, hc, hs, he⟩ | ⟨k, hk, hc, hf, he⟩ | ⟨hc, he⟩
        · left
          refine ⟨k + 1, by omega, ?_, ?_, ?_⟩
          · intro j hj
            rcases j with _ | j
            · simpa using hcont
            · have h1 := hc j (by omega)
              rwa [show polls + 1 + j = polls + (j + 1) by omega] at h1
          · rwa [show polls + (k + 1) = polls + 1 + k by omega]
          · rw [hloopc, he, show polls + (k + 1) = polls + 1 + k by omega]
        · right; left
          refine ⟨k + 1, by omega, ?_, ?_, ?_⟩
          · intro j hj
            rcases j with _ | j
            · simpa using hcont
            · have h1 := hc j (by omega)
              rwa [show polls + 1 + j = polls + (j + 1) by omega] at h1
          · rwa [show polls + (k + 1) = polls + 1 + k by omega]
          · rw [hloopc, he]
        · right; right
          refine ⟨?_, ?_⟩
          · intro j hj
            rcases j with _ | j
            · simpa using hcont
            · have h1 := hc j (by omega)
              rwa [show polls + 1 + j = polls + (j + 1) by omega] at h1
          · rw [hloopc, he]
    · by_cases h202 : (resp polls).status = 202
      · have hcont : poll_continues (resp polls) := Or.inr h202
        have hloopc : get_code_frequency_loop resp (60 - 5 * (n + 1)) polls =
            get_code_frequency_loop resp (60 - 5 * n) (polls + 1) := by
          rw [loop_eq_of_lt resp _ polls hw, if_neg h200, if_pos h202, hstep]
        rcases ih (polls + 1) (by omega) with ⟨k, hk, hc, hs, he⟩ | ⟨k, hk, hc, hf, he⟩ | ⟨hc, he⟩
        · left
          refine ⟨k + 1, by omega, ?_, ?_, ?_⟩
          · intro j hj
            rcases j with _ | j
            · simpa using hcont
            · have h1 := hc j (by omega)
              rwa [show polls + 1 + j = polls + (j + 1) by omega] at h1
          · rwa [show polls + (k + 1) = polls + 1 + k by omega]
          · rw [hloopc, he, show polls + (k + 1) = polls + 1 + k by omega]
        · right; left
          refine ⟨k + 1, by omega, ?_, ?_, ?_⟩
          · intro j hj
            rcases j with _ | j
            · simpa using hcont
            · have h1 := hc j (by omega)
              rwa [show polls + 1 + j = polls + (j + 1) by omega] at h1
          · rwa [show polls + (k + 1) = polls + 1 + k by omega]
          · rw [hloopc, he]
        · right; right
          refine ⟨?_, ?_⟩
          · intro j hj
            rcases j with _ | j
            · simpa using hcont
            · have h1 := hc j (by omega)
              rwa [show polls + 1 + j = polls + (j + 1) by omega] at h1
          · rw [hloopc, he]
      · right; left
        refine ⟨0, by omega, fun j hj => absurd hj (Nat.not_lt_zero j), ?_, ?_⟩
        · rw [Nat.add_zero]
          exact ⟨h200, h202⟩
        · rw [loop_eq_of_lt resp _ polls hw, if_neg h200, if_neg h202]

theorem get_code_frequency_loop_agree (resp g : ℕ → HttpResponse) :
    ∀ (n polls : ℕ), n ≤ 12 → (∀ j, j < n → resp (polls + j) = g (polls + j)) →
      get_code_frequency_loop resp (60 - 5 * n) polls =
      get_code_frequency_loop g (60 - 5 * n) polls := by
  intro n
  induction n with
  | zero =>
    intro polls _ _
    rw [loop_eq_of_ge resp _ polls (by simp [max_wait]),
      loop_eq_of_ge g _ polls (by simp [max_wait])]
  | succ n ih =>
    intro polls hn hag
    have hw : (60 - 5 * (n + 1)) < max_wait := by
      simp only [max_wait]
      omega
    have hstep : 60 - 5 * (n + 1) + wait_time = 60 - 5 * n := by
      simp only [wait_time]
      omega
    have h0 : resp polls = g polls := by
      have := hag 0 (by omega)
      rwa [Nat.add_zero] at this
    have hrec : get_code_frequency_loop resp (60 - 5 * n) (polls + 1) =
        get_code_frequency_loop g (60 - 5 * n) (polls + 1) := by
      apply ih (polls + 1) (by omega)
      intro j hj
      have := hag (j + 1) (by omega)
      rwa [show polls + (j + 1) = polls + 1 + j by omega] at this
    rw [loop_eq_of_lt resp _ polls hw, loop_eq_of_lt g _ polls hw, hstep, ← h0, hrec]

/-- C1: every call of `get_code_frequency` ends in exactly one of three ways:
the body of the first non-empty 200 response within the first 12 polls; an
empty series at the first response whose status is neither 200 nor 202; or,
when all of the first 12 polls are still-computing responses, the empty
series once the accumulated wait reaches the 60-second ceiling.  Moreover the
result never depends on any response after the 12th, so the loop performs at
most 12 requests. -/
theorem C1_get_code_frequency_outcomes (resp : ℕ → HttpResponse) :
    ((∃ k, k < 12 ∧ (∀ j, j < k → poll_continues (resp j)) ∧ poll_succeeds (resp k) ∧
        get_code_frequency resp = (resp k).body) ∨
     (∃ k, k < 12 ∧ (∀ j, j < k → poll_continues (resp j)) ∧ poll_fails (resp k) ∧
        get_code_frequency resp = []) ∨
     ((∀ j, j < 12 → poll_continues (resp j)) ∧ get_code_frequency resp = [])) ∧
    ∀ g : ℕ → HttpResponse,
      get_code_frequency resp =
        get_code_frequency (fun i => if i < 12 then resp i else g i) := by
  constructor
  · have h := get_code_frequency_loop_spec resp 12 0 (le_refl 12)
    rw [show (60 - 5 * 12 : ℕ) = 0 by norm_num] at h
    simpa [get_code_frequency, Nat.zero_add] using h
  · intro g
    have h := get_code_frequency_loop_agree resp (fun i => if i < 12 then resp i else g i)
      12 0 (le_refl 12) ?_
    · rw [show (60 - 5 * 12 : ℕ) = 0 by norm_num] at h
      exact h
    · intro j hj
      simp only [Nat.zero_add]
      rw [if_pos (by omega)]

/-! ## Claim C6: repositories with an empty fetch are excluded -/

theorem keys_update (stats : List RepoStat) (name : String) (v : ℤ × ℤ) :
    (stats.map (fun p => if p.1 = name then (name, v) else p)).map Prod.fst =
      stats.map Prod.fst := by
  rw [List.map_map]
  apply List.map_congr_left
  intro p _
  by_cases h : p.1 = name
  · simp [h]
  · simp [h]

theorem not_mem_keys_dict_assign (stats : List RepoStat) (name : String) (v : ℤ × ℤ)
    (r : String) (hr : r ∉ stats.map Prod.fst) (hrn : r ≠ name) :
    r ∉ (dict_assign stats name v).map Prod.fst := by
  unfold dict_assign
  split
  · rw [keys_update]
    exact hr
  · rw [List.map_append]
    intro hmem
    rcases List.mem_append.mp hmem with h | h
    · exact hr h
    · simp only [List.map_cons, List.map_nil, List.mem_singleton] at h
      exact hrn h

theorem not_mem_keys_process_repo (fetch : String → List (List ℤ))
    (stats : List RepoStat) (n r : String) (hfr : fetch r = [])
    (hr : r ∉ stats.map Prod.fst) :
    r ∉ (process_repo fetch stats n).map Prod.fst := by
  unfold process_repo
  dsimp only
  by_cases hn : n = r
  · subst hn
    simp only [hfr, ne_eq, not_true_eq_false, if_false]
    exact hr
  · split
    · split
      · exact not_mem_keys_dict_assign stats n _ r hr (fun h => hn h.symm)
      · exact hr
    · exact hr

theorem not_mem_keys_foldl_process (fetch : String → List (List ℤ)) (r : String)
    (hfr : fetch r = []) :
    ∀ (names : List String) (stats : List RepoStat), r ∉ stats.map Prod.fst →
      r ∉ (names.foldl (process_repo fetch) stats).map Prod.fst := by
  intro names
  induction names with
  | nil =>
    intro stats h
    exact h
  | cons n t ih =>
    intro stats h
    exact ih _ (not_mem_keys_process_repo fetch stats n r hfr h)

theorem not_mem_keys_rounds (fetch : ℕ → String → List (List ℤ))
    (repo_names : List String) (r : String) (hfr : ∀ k, fetch k r = []) :
    ∀ (rounds : List ℕ) (stats : List RepoStat), r ∉ stats.map Prod.fst →
      r ∉ (rounds.foldl
        (fun stats round_num =>
          (repo_names.filter (fun n => !(stats.map Prod.fst).contains n)).foldl
            (process_repo (fetch round_num)) stats)
        stats).map Prod.fst := by
  intro rounds
  induction rounds with
  | nil =>
    intro stats h
    exact h
  | cons k t ih =>
    intro stats h
    exact ih _ (not_mem_keys_foldl_process (fetch k) r (hfr k) _ stats h)

/-- C6: a repository whose code-frequency fetch returns the empty series in
every collection round is never inserted into `repo_stats`: its name is
missing from the collected keys, from the keys of the sorted top-10 listing,
and it does not contribute to the repository count rendered in the footer
(filtering it away changes nothing). -/
theorem C6_empty_fetch_excluded (fetch : ℕ → String → List (List ℤ))
    (repo_names : List String) (r : String) (hfr : ∀ k, fetch k r = []) :
    r ∉ (collect_stats fetch repo_names).map Prod.fst ∧
    r ∉ (((sortDesc (collect_stats fetch repo_names)).take 10).map Prod.fst) ∧
    ((collect_stats fetch repo_names).filter (fun p => p.1 != r)).length =
      (collect_stats fetch repo_names).length := by
  have hkeys : r ∉ (collect_stats fetch repo_names).map Prod.fst := by
    unfold collect_stats
    exact not_mem_keys_rounds fetch repo_names r hfr (List.range 3) [] (by simp)
  refine ⟨hkeys, ?_, ?_⟩
  · intro hmem
    obtain ⟨p, hp, he⟩ := List.mem_map.mp hmem
    apply hkeys
    refine List.mem_map.mpr ⟨p, ?_, he⟩
    have h1 : p ∈ sortDesc (collect_stats fetch repo_names) := List.mem_of_mem_take hp
    unfold sortDesc at h1
    exact (List.mem_insertionSort _).mp h1
  · have hself : (collect_stats fetch repo_names).filter (fun p => p.1 != r) =
        collect_stats fetch repo_names := by
      apply List.filter_eq_self.mpr
      intro p hp
      have hne : p.1 ≠ r := fun he => hkeys (List.mem_map.mpr ⟨p, hp, he⟩)
      simpa [bne_iff_ne] using hne
    rw [hself]

theorem C6_empty_fetch_excluded_witness :
    "a" ∉ (collect_stats (fun _ _ => []) ["a", "b"]).map Prod.fst ∧
    "a" ∉ (((sortDesc (collect_stats (fun _ _ => []) ["a", "b"])).take 10).map Prod.fst) ∧
    ((collect_stats (fun _ _ => []) ["a", "b"]).filter (fun p => p.1 != "a")).length =
      (collect_stats (fun _ _ => []) ["a", "b"]).length :=
  C6_empty_fetch_excluded (fun _ _ => []) ["a", "b"] "a" (fun _ => rfl)

/-! ## Claim C5: order independence of the aggregations -/

theorem aggregate_daily_perm (rss1 rss2 : List (List (ℤ × ℤ))) (hp : rss1.Perm rss2) :
    aggregate_daily rss1 = aggregate_daily rss2 := by
  funext date
  exact (hp.map _).sum_eq

theorem sortDesc_sorted_strict (l : List RepoStat)
    (hd : l.Pairwise (fun p q => repo_key p ≠ repo_key q)) :
    (sortDesc l).Pairwise (fun p q => repo_key q < repo_key p ∨ p = q) := by
  haveI : IsTotal RepoStat (fun p q => repo_key q ≤ repo_key p) :=
    ⟨fun a b => le_total (repo_key b) (repo_key a)⟩
  haveI : IsTrans RepoStat (fun p q => repo_key q ≤ repo_key p) :=
    ⟨fun _ _ _ h1 h2 => le_trans h2 h1⟩
  have h1 : (sortDesc l).Pairwise (fun p q => repo_key q ≤ repo_key p) :=
    List.sorted_insertionSort _ l
  have h2 : (sortDesc l).Pairwise (fun p q => repo_key p ≠ repo_key q) := by
    unfold sortDesc
    exact ((List.perm_insertionSort _ l).pairwise_iff (fun h => Ne.symm h)).mpr hd
  refine (h1.and h2).imp ?_
  intro p q hpq
  exact Or.inl (lt_of_le_of_ne hpq.1 hpq.2.symm)

theorem sortDesc_eq_of_perm_of_distinct (rs1 rs2 : List RepoStat) (hp : rs1.Perm rs2)
    (hd : rs1.Pairwise (fun p q => repo_key p ≠ repo_key q)) :
    sortDesc rs1 = sortDesc rs2 := by
  haveI : IsAntisymm RepoStat (fun p q => repo_key q < repo_key p ∨ p = q) := by
    refine ⟨?_⟩
    intro a b h1 h2
    rcases h1 with h1 | h1
    · rcases h2 with h2 | h2
      · omega
      · exact h2.symm
    · exact h1
  have hperm : (sortDesc rs1).Perm (sortDesc rs2) :=
    (List.perm_insertionSort _ rs1).trans (hp.trans (List.perm_insertionSort _ rs2).symm)
  exact List.eq_of_perm_of_sorted hperm (sortDesc_sorted_strict rs1 hd)
    (sortDesc_sorted_strict rs2 ((hp.pairwise_iff (fun h => Ne.symm h)).mp hd))

/-- C5 counterexample: two repositories with tied totals.  Python's stable
sort keeps them in processing order, so the two orders render different
leaderboards (the rows listing `a` and `b` swap). -/
theorem C5_order_counterexample :
    [("a", (1 : ℤ), (0 : ℤ)), ("b", 1, 0)].Perm [("b", (1 : ℤ), (0 : ℤ)), ("a", 1, 0)] ∧
    generate_lines_svg [("a", 1, 0), ("b", 1, 0)] "t" 480 ≠
      generate_lines_svg [("b", 1, 0), ("a", 1, 0)] "t" 480 := by
  refine ⟨by decide, ?_⟩
  intro h
  have e1 : generate_lines_svg [("a", 1, 0), ("b", 1, 0)] "t" 480 =
      lines_seg0 ++ "480" ++ lines_seg1 ++ "114" ++ lines_seg2 ++
        (left_row "a" ++ "\n" ++ left_row "b") ++ lines_seg3 ++
        (right_row (1, 0) 1 ++ "\n" ++ right_row (1, 0) 1) ++ lines_seg4 ++
        "2" ++ lines_seg5 ++ "0" ++ lines_seg6 ++ "2" ++ lines_seg7 ++ "t" ++
        lines_seg8 := rfl
  have e2 : generate_lines_svg [("b", 1, 0), ("a", 1, 0)] "t" 480 =
      lines_seg0 ++ "480" ++ lines_seg1 ++ "114" ++ lines_seg2 ++
        (left_row "b" ++ "\n" ++ left_row "a") ++ lines_seg3 ++
        (right_row (1, 0) 1 ++ "\n" ++ right_row (1, 0) 1) ++ lines_seg4 ++
        "2" ++ lines_seg5 ++ "0" ++ lines_seg6 ++ "2" ++ lines_seg7 ++ "t" ++
        lines_seg8 := rfl
  rw [e1, e2] at h
  have h2 := congrArg String.data h
  simp only [left_row, String.data_append, List.append_assoc] at h2
  replace h2 := List.append_cancel_left h2
  replace h2 := List.append_cancel_left h2
  replace h2 := List.append_cancel_left h2
  replace h2 := List.append_cancel_left h2
  replace h2 := List.append_cancel_left h2
  replace h2 := List.append_cancel_left h2
  replace h2 := List.append_cancel_left h2
  replace h2 := List.append_cancel_left h2
  simp only [List.singleton_append, List.cons.injEq] at h2
  exact absurd h2.1 (by decide)

/-- C5 (amended): permuting the order in which repositories are processed
never changes the summed daily commit map of the activity job; it leaves the
rendered lines-of-code leaderboard unchanged provided the per-repository
totals `additions + |deletions|` are pairwise distinct (on tied totals the
stable sort keeps processing order, which changes the rendering). -/
theorem C5_order_independence :
    (∀ (rss1 rss2 : List (List (ℤ × ℤ))), rss1.Perm rss2 →
      aggregate_daily rss1 = aggregate_daily rss2) ∧
    (∀ (rs1 rs2 : List RepoStat) (now : String) (width : ℤ), rs1.Perm rs2 →
      rs1.Pairwise (fun p q => repo_key p ≠ repo_key q) →
      generate_lines_svg rs1 now width = generate_lines_svg rs2 now width) := by
  refine ⟨aggregate_daily_perm, ?_⟩
  intro rs1 rs2 now width hp hd
  unfold generate_lines_svg
  rw [sortDesc_eq_of_perm_of_distinct rs1 rs2 hp hd, hp.length_eq,
    (hp.map (fun p => p.2.1)).sum_eq, (hp.map (fun p => |p.2.2|)).sum_eq]

theorem C5_order_independence_witness :
    aggregate_daily [[(0, 1)], [(0, 2)]] = aggregate_daily [[(0, 2)], [(0, 1)]] ∧
    generate_lines_svg [("a", 1, 0), ("b", 3, 0)] "t" 480 =
      generate_lines_svg [("b", 3, 0), ("a", 1, 0)] "t" 480 :=
  ⟨C5_order_independence.1 _ _ (by decide),
   C5_order_independence.2 _ _ "t" 480 (by decide) (by decide)⟩

/-! ## Claim C4: byte-identical reruns -/

/-- C4 counterexample: two runs on identical fetched data but different clock
readings differ, because the generation timestamp is spliced into the
footer. -/
theorem C4_rerun_counterexample :
    generate_lines_svg [("a", 5, -3)] "12:00:00" 480 ≠
      generate_lines_svg [("a", 5, -3)] "12:00:01" 480 := by
  intro h
  have e1 : generate_lines_svg [("a", 5, -3)] "12:00:00" 480 =
      lines_svg_head [("a", 5, -3)] 480 ++ "12:00:00" ++ lines_seg8 := rfl
  have e2 : generate_lines_svg [("a", 5, -3)] "12:00:01" 480 =
      lines_svg_head [("a", 5, -3)] 480 ++ "12:00:01" ++ lines_seg8 := rfl
  rw [e1, e2] at h
  have h2 := congrArg String.data h
  simp only [String.data_append, List.append_assoc] at h2
  replace h2 := List.append_cancel_left h2
  replace h2 := List.append_cancel_right h2
  exact absurd h2 (by decide)

/-- C4 (amended): reruns are byte-identical exactly when the clock readings
agree: the lines SVG splices the generation timestamp into an otherwise
data-determined string (`head(repo_stats) ++ now ++ constant tail`), and the
activity SVG depends on the fetched data and current date only through the 90
aggregated window values. -/
theorem C4_determinism :
    (∀ (repo_stats : List RepoStat) (now : String) (width : ℤ),
      generate_lines_svg repo_stats now width =
        lines_svg_head repo_stats width ++ now ++ lines_seg8) ∧
    (∀ (d1 d2 : List (ℤ × ℤ)) (today width height : ℤ),
      activity_values d1 today = activity_values d2 today →
      generate_full_activity_svg d1 today width height =
        generate_full_activity_svg d2 today width height) := by
  constructor
  · intro rs now w
    rfl
  · intro d1 d2 today w hgt hval
    unfold generate_full_activity_svg
    rw [hval]

theorem C4_determinism_witness :
    generate_lines_svg [] "x" 480 = lines_svg_head [] 480 ++ "x" ++ lines_seg8 ∧
    generate_full_activity_svg [] 0 400 120 =
      generate_full_activity_svg [(1000, 5)] 0 400 120 :=
  ⟨C4_determinism.1 [] "x" 480, C4_determinism.2 [] [(1000, 5)] 0 400 120 (by decide)⟩
